import Mathlib

/-!
# Verification of the Waveshare-Rover LiDAR pipeline

Shallow embedding of the LiDAR packet framing/decoding pipeline and the
obstacle-decision logic of the Waveshare-Rover repository.  Two source
variants exist:

* `Wrover-Basic(Good).py` — fixed safety distance, quadrant decision policy;
* `Wrover-BASIC(REV C).py` (`src/unnamed/part_000`) — dynamic safety margin,
  intensity-gated decision.

Byte streams and packets are `List ℕ` (each element one byte).  Python float
arithmetic is modelled exactly over `ℚ`.  A Python `ZeroDivisionError` that
escapes the parser's `except struct.error` handler is modelled by a dedicated
result constructor.
-/

namespace Wrover

/-- Actions: the five discrete navigation directives (the string constants
`"FORWARD"`, `"REVERSE"`, `"TURN_LEFT"`, `"TURN_RIGHT"`, `"STOP"` of the
source). -/
inductive Action where
  | FORWARD
  | REVERSE
  | TURN_LEFT
  | TURN_RIGHT
  | STOP
deriving DecidableEq, Repr

/-- Python `%` on rationals: `x - m * floor (x / m)`; for `m > 0` this is
exactly Python's float modulo. -/
def pymod (x m : ℚ) : ℚ := x - m * (⌊x / m⌋ : ℤ)

/-- Byte access `packet[i]` (every read the parsers perform is
bounds-guarded, so the default value is never observable). -/
def byteAt (p : List ℕ) (i : ℕ) : ℕ := p.getD i 0

/-- Little-endian 16-bit field at offset `i`, as unpacked by `struct`
format `<H`. -/
def u16le (p : List ℕ) (i : ℕ) : ℕ := byteAt p i + 256 * byteAt p (i + 1)

/-! ## Frame Reader (`find_packet_start` / `read_packet`)

The serial source is modelled as a finite byte list; `read(n)` past the end
of the stream returns the (possibly empty) remainder.  `find_packet_start`
loops forever when the stream is exhausted without a `0x54` byte; that
non-termination is modelled by `none`. -/

/-- Model of `find_packet_start`: drop bytes until one equals the header
sentinel `0x54`; return the stream that follows the header, or `none` when
the stream ends first (the Python loop never returns in that case). -/
def find_packet_start : List ℕ → Option (List ℕ)
  | [] => none
  | b :: rest => if b = 0x54 then some rest else find_packet_start rest

/-- Model of `read_packet`: the header byte followed by `read(21)` — i.e. by
*up to* 21 further bytes; a short stream yields a truncated packet, not an
error. -/
def read_packet (s : List ℕ) : Option (List ℕ) :=
  (find_packet_start s).map fun rest => 0x54 :: rest.take 21

/-! ## Decoded header/trailer fields (shared offsets of both variants) -/

/-- Field `num_points = ver_len & 0x1F` (low five bits of byte 1). -/
def frame_num_points (p : List ℕ) : ℕ := byteAt p 1 &&& 0x1F

/-- Field `speed`, little-endian at offset 2. -/
def frame_speed (p : List ℕ) : ℕ := u16le p 2

/-- Field `start_angle`, little-endian at offset 4. -/
def frame_start_angle (p : List ℕ) : ℕ := u16le p 4

/-- Field `end_angle`, little-endian at offset `len(packet) - 5`. -/
def frame_end_angle (p : List ℕ) : ℕ := u16le p (p.length - 5)

/-- Expression `(end_angle - start_angle) / max(num_points - 1, 1)` —
`angular_resolution` at line 170 of REV C; the same expression is
`angle_increment` in the Basic variant (true division in both). -/
def angular_resolution_of (start_angle end_angle point_count : ℕ) : ℚ :=
  ((end_angle : ℚ) - (start_angle : ℚ)) / ((max ((point_count : ℤ) - 1) 1 : ℤ) : ℚ)

/-- The angular resolution a frame's decoded fields induce. -/
def frame_angular_resolution (p : List ℕ) : ℚ :=
  angular_resolution_of (frame_start_angle p) (frame_end_angle p) (frame_num_points p)

/-! ## Safety Margin Calculator (`calculate_dynamic_safety_margin`, REV C) -/

/-- Model of `calculate_dynamic_safety_margin(speed, angular_resolution)`:
`950 + (speed / 1000) * (36000 / angular_resolution)`.  When
`angular_resolution = 0` the Python expression `36000 / angular_resolution`
raises `ZeroDivisionError`, modelled by `none`. -/
def calculate_dynamic_safety_margin (speed : ℕ) (angular_resolution : ℚ) : Option ℚ :=
  if angular_resolution = 0 then none
  else
    let base_safety_distance : ℚ := 950
    let speed_factor : ℚ := (speed : ℚ) / 1000
    let resolution_factor : ℚ := 36000 / angular_resolution
    some (base_safety_distance + speed_factor * resolution_factor)

/-- The dynamic safety margin computed from a frame's decoded fields, as
the REV C `parse_lidar_packet` does at line 173. -/
def frame_margin (p : List ℕ) : Option ℚ :=
  calculate_dynamic_safety_margin (frame_speed p) (frame_angular_resolution p)

/-- The margin formula as the specification words it:
`base_distance + (scan_speed / 1000.0) * (36000.0 / angular_resolution)`
with `base_distance = 950` and
`angular_resolution = (end_angle - start_angle) / max(point_count - 1, 1)`.
This definition follows the claim's words, to be compared with the
composition of `calculate_dynamic_safety_margin` and
`angular_resolution_of` taken from the source. -/
def margin_formula_spec (speed start_angle end_angle point_count : ℕ) : ℚ :=
  950 + ((speed : ℚ) / 1000) *
    (36000 / (((end_angle : ℚ) - (start_angle : ℚ)) /
      ((max ((point_count : ℤ) - 1) 1 : ℤ) : ℚ)))

/-! ## Decision helpers -/

/-- Constant `SAFETY_DISTANCE = 800` (millimeters) of the Basic variant. -/
def SAFETY_DISTANCE : ℕ := 800

/-- The quadrant classification of `Wrover-Basic(Good).py` lines 179–184,
applied to the mount-adjusted angle of the closest obstacle. -/
def quadrant_decision (a : ℚ) : Action :=
  if 45 ≤ a ∧ a ≤ 135 then Action.TURN_RIGHT
  else if 225 ≤ a ∧ a ≤ 315 then Action.TURN_LEFT
  else Action.REVERSE

/-- Model of `make_dynamic_decision(intensity, angle)` of REV C: above
intensity 20 split front/back at the 9000–27000 centidegree band, otherwise
`STOP`. -/
def make_dynamic_decision (intensity : ℕ) (angle : ℚ) : Action :=
  if 20 < intensity then
    if 9000 ≤ angle ∧ angle ≤ 27000 then Action.TURN_LEFT else Action.TURN_RIGHT
  else Action.STOP

/-! ## Frame Decoder + Decision Engine, Basic variant (`parse_lidar_packet`)

Call `struct.unpack_from('<BBHH', packet, 0)` needs 6 bytes and
`struct.unpack_from('<HHB', packet, len-5)` needs `len ≥ 5`, so the caught
`struct.error` (→ `"STOP"`) occurs exactly when `len(packet) < 6`.  The
per-point unpack is guarded by `offset + 3 <= len(packet) - 5` and can never
fail. -/

/-- The closest-obstacle scan loop of the Basic variant: minimum positive
`distance` wins (`if 0 < distance < closest_distance`), recording the
mount-adjusted angle `(((start + i*increment) % 360) + 90) % 360`. -/
def closest_obstacle_basic (p : List ℕ) : Option (ℕ × ℚ) :=
  (List.range (frame_num_points p)).foldl
    (fun acc i =>
      let offset : ℕ := 6 + i * 3
      if (offset : ℤ) + 3 ≤ (p.length : ℤ) - 5 then
        let distance := u16le p offset
        let angle_increment := frame_angular_resolution p
        let angle := pymod ((frame_start_angle p : ℚ) + (i : ℚ) * angle_increment) 360
        let adjusted_angle := pymod (angle + 90) 360
        match acc with
        | none => if 0 < distance then some (distance, adjusted_angle) else none
        | some (cd, ca) =>
            if 0 < distance ∧ distance < cd then some (distance, adjusted_angle)
            else some (cd, ca)
      else acc)
    none

/-- Model of `parse_lidar_packet` of `Wrover-Basic(Good).py`:
`struct.error → "STOP"`; `num_points <= 1 → "STOP"`; otherwise
quadrant-classify the closest obstacle when it is nearer than
`SAFETY_DISTANCE`, else `"FORWARD"`. -/
def parse_lidar_packet (p : List ℕ) : Action :=
  if p.length < 6 then Action.STOP
  else if frame_num_points p ≤ 1 then Action.STOP
  else
    match closest_obstacle_basic p with
    | some (cd, ca) =>
        if cd < SAFETY_DISTANCE then quadrant_decision ca else Action.FORWARD
    | none => Action.FORWARD

/-! ## Frame Decoder + Decision Engine, REV C variant -/

/-- Result of the REV C parser: either the returned action, or an uncaught
`ZeroDivisionError` (the `except` clause catches only `struct.error`). -/
inductive PyResult where
  | ok (a : Action)
  | zeroDivisionError
deriving DecidableEq, Repr

/-- The obstacle scan loop of REV C: every point with
`0 < distance < margin` *overwrites* the tracked triple
(distance, intensity, mount-adjusted centidegree angle) — the last
qualifying point wins; there is no `distance < closest_distance` test. -/
def closest_obstacle_rev_c (p : List ℕ) (margin : ℚ) : Option (ℕ × ℕ × ℚ) :=
  (List.range (frame_num_points p)).foldl
    (fun acc i =>
      let offset : ℕ := 6 + i * 3
      if (offset : ℤ) + 3 ≤ (p.length : ℤ) - 5 then
        let distance := u16le p offset
        let intensity := byteAt p (offset + 2)
        let angle := pymod ((frame_start_angle p : ℚ) +
          frame_angular_resolution p * (i : ℚ)) 36000
        let adjusted_angle := pymod (angle + 9000) 36000
        if 0 < distance ∧ (distance : ℚ) < margin then
          some (distance, intensity, adjusted_angle)
        else acc
      else acc)
    none

/-- Model of `parse_lidar_packet` of REV C (`part_000` lines 158–202): no
degenerate-geometry guard; the margin computation can raise
`ZeroDivisionError`; the decision is `make_dynamic_decision` on the last
qualifying point, `"FORWARD"` when none qualifies. -/
def parse_lidar_packet_rev_c (p : List ℕ) : PyResult :=
  if p.length < 6 then PyResult.ok Action.STOP
  else
    match frame_margin p with
    | none => PyResult.zeroDivisionError
    | some margin =>
        PyResult.ok
          (match closest_obstacle_rev_c p margin with
           | some (cd, intensity, ang) =>
               if (cd : ℚ) < margin then make_dynamic_decision intensity ang
               else Action.FORWARD
           | none => Action.FORWARD)

/-! ## Action Pipeline (the `queue.Queue` shared by the threads)

The `action_queue` is a plain unbounded FIFO: `put` appends, `get` removes
the oldest element.  The control loop polls
`if not action_queue.empty(): action_queue.get()`; polling an empty queue
yields nothing, modelled as `none`. -/

/-- Model of `action_queue.put(action)` — FIFO append. -/
def queue_put (q : List Action) (a : Action) : List Action := q ++ [a]

/-- One iteration of the control loop's
`if not action_queue.empty(): action = action_queue.get()`: the popped
action (`none` when nothing is pending) and the remaining queue. -/
def pop_latest (q : List Action) : Option Action × List Action :=
  match q with
  | [] => (none, [])
  | a :: rest => (some a, rest)

/-! ## The `COMMANDS` tables -/

/-- One motor command record `{T: …, L: …, R: …}` (`L`/`R` absent for
`STOP`). -/
structure MotorCommand where
  T : Int
  L : Option Int
  R : Option Int
deriving DecidableEq, Repr

/-- The REV C `COMMANDS` dict (`part_000` lines 91–97). -/
def COMMANDS : List (String × MotorCommand) :=
  [("FORWARD", ⟨1, some 150, some 150⟩),
   ("REVERSE", ⟨1, some (-200), some (-200)⟩),
   ("TURN_LEFT", ⟨1, some (-255), some 255⟩),
   ("TURN_RIGHT", ⟨1, some 255, some (-255)⟩),
   ("STOP", ⟨0, none, none⟩)]

/-- Values appearing in the Basic `COMMANDS` literal: an integer or a
nested dict. -/
inductive PyVal where
  | int : Int → PyVal
  | dict : List (String × PyVal) → PyVal

/-- The `COMMANDS` literal of `Wrover-Basic(Good).py` lines 76–82 under its
minimal well-formed completion.  The source text opens the record of
`"FORWARD"` with a brace at line 77 and never closes it on that line; the
single closing brace at line 82 therefore ends the *FORWARD* record and the
outer dict is left unclosed (CPython rejects the module: the brace opened
at line 76 is never closed).  Closing the one missing brace at the end of
the literal places `REVERSE`, `TURN_LEFT`, `TURN_RIGHT` and `STOP` *inside*
FORWARD's record, so the top level binds only `"FORWARD"`. -/
def COMMANDS_basic : List (String × PyVal) :=
  [("FORWARD", PyVal.dict
     [("T", PyVal.int 1), ("L", PyVal.int 100), ("R", PyVal.int 100),
      ("REVERSE", PyVal.dict
        [("T", PyVal.int 1), ("L", PyVal.int (-125)), ("R", PyVal.int (-125))]),
      ("TURN_LEFT", PyVal.dict
        [("T", PyVal.int 1), ("L", PyVal.int (-255)), ("R", PyVal.int 255)]),
      ("TURN_RIGHT", PyVal.dict
        [("T", PyVal.int 1), ("L", PyVal.int 255), ("R", PyVal.int (-255))]),
      ("STOP", PyVal.dict [("T", PyVal.int 0)])])]

/-! ## Concrete frames used in counterexamples and witnesses -/

/-- Frame of 22 bytes with `ver_len = 1` (`point_count = 1`) and
`start_angle = end_angle = 0`. -/
def pkt_degenerate : List ℕ := [0x54, 1] ++ List.replicate 20 0

/-- Frame of 22 bytes with `point_count = 1`, `start_angle = 0`,
`end_angle = 100`, `speed = 0`, and one zero-distance point. -/
def pkt_np1 : List ℕ :=
  [0x54, 1, 0, 0, 0, 0] ++ List.replicate 11 0 ++ [100, 0, 0, 0, 0]

/-- Frame of 22 bytes with `point_count = 2`, `start_angle = 0`,
`end_angle = 100`, `speed = 0`; point 0 has distance 100 and intensity 30,
point 1 has distance 500 and intensity 0 — both below the margin 950. -/
def pkt_two_points : List ℕ :=
  [0x54, 2, 0, 0, 0, 0, 100, 0, 30, 244, 1, 0] ++ List.replicate 5 0 ++
    [100, 0, 0, 0, 0]

/-- Frame of 22 bytes with `point_count = 2`, `start_angle = end_angle = 0`,
point 0 at distance 1: its Basic-variant mount-adjusted angle is 90°. -/
def pkt_quad90 : List ℕ :=
  [0x54, 2, 0, 0, 0, 0, 1, 0, 0] ++ List.replicate 8 0 ++ [0, 0, 0, 0, 0]

/-- Frame of 22 bytes with `point_count = 2` and
`start_angle = end_angle = 500`. -/
def pkt_equal_angles : List ℕ :=
  [0x54, 2, 0, 0, 244, 1] ++ List.replicate 11 0 ++ [244, 1, 0, 0, 0]

/-! ## Helper lemmas -/

/-- Evaluation helper: `pymod x m = x` when `0 ≤ x < m`. -/
lemma pymod_small {x m : ℚ} (h0 : 0 ≤ x) (h1 : x < m) : pymod x m = x := by
  have hm : 0 < m := lt_of_le_of_lt h0 h1
  rw [pymod, Int.floor_eq_zero_iff.mpr ⟨div_nonneg h0 hm.le, (div_lt_one hm).mpr h1⟩]
  simp

/-- The divisor of the margin computation vanishes exactly when the two
angles coincide, regardless of the point count. -/
lemma angular_resolution_eq_zero_iff (start_angle end_angle point_count : ℕ) :
    angular_resolution_of start_angle end_angle point_count = 0 ↔
      end_angle = start_angle := by
  have hden : ((max ((point_count : ℤ) - 1) 1 : ℤ) : ℚ) ≠ 0 := by
    have h1 : (1 : ℤ) ≤ max ((point_count : ℤ) - 1) 1 := le_max_right _ _
    exact_mod_cast (by omega : (max ((point_count : ℤ) - 1) 1) ≠ 0)
  rw [angular_resolution_of, div_eq_zero_iff]
  constructor
  · rintro (h | h)
    · exact_mod_cast sub_eq_zero.mp h
    · exact absurd h hden
  · intro h
    left
    rw [h]
    ring

/-- Header search ignores a junk prefix that contains no `0x54` byte. -/
lemma find_packet_start_append (junk l : List ℕ) (hj : ∀ b ∈ junk, b ≠ 0x54) :
    find_packet_start (junk ++ l) = find_packet_start l := by
  induction junk with
  | nil => rfl
  | cons b rest ih =>
      have hb : b ≠ 0x54 := hj b (List.mem_cons_self b rest)
      have hrest : ∀ x ∈ rest, x ≠ 0x54 := fun x hx => hj x (List.mem_cons_of_mem b hx)
      simp only [List.cons_append, find_packet_start, if_neg hb]
      exact ih hrest

/-- Field values of `pkt_two_points`. -/
lemma two_points_fields :
    frame_num_points pkt_two_points = 2 ∧ frame_speed pkt_two_points = 0 ∧
      frame_start_angle pkt_two_points = 0 ∧ frame_end_angle pkt_two_points = 100 ∧
      pkt_two_points.length = 22 := by
  refine ⟨by decide, by decide, by decide, by decide, by decide⟩

/-- Angular resolution of `pkt_two_points`. -/
lemma two_points_ar : frame_angular_resolution pkt_two_points = 100 := by
  rw [frame_angular_resolution, two_points_fields.1, two_points_fields.2.2.1,
    two_points_fields.2.2.2.1, angular_resolution_of]
  norm_num

/-- Margin of `pkt_two_points`. -/
lemma two_points_margin : frame_margin pkt_two_points = some 950 := by
  rw [frame_margin, two_points_fields.2.1, two_points_ar, calculate_dynamic_safety_margin]
  norm_num

/-- The REV C scan loop on `pkt_two_points` keeps the *last* qualifying
point (distance 500, intensity 0, adjusted angle 9100 centidegrees). -/
lemma two_points_closest :
    closest_obstacle_rev_c pkt_two_points 950 = some (500, 0, 9100) := by
  have hd0 : u16le pkt_two_points 6 = 100 := by decide
  have hd1 : u16le pkt_two_points 9 = 500 := by decide
  have hi0 : byteAt pkt_two_points 8 = 30 := by decide
  have hi1 : byteAt pkt_two_points 11 = 0 := by decide
  rw [closest_obstacle_rev_c, two_points_fields.1, two_points_ar]
  simp only [List.range_succ, List.range_zero, List.nil_append, List.cons_append,
    List.foldl_cons, List.foldl_nil, List.foldl_append, two_points_fields.2.2.1,
    two_points_fields.2.2.2.2, hd0, hd1, hi0, hi1]
  norm_num [pymod_small]

/-- Margin of `pkt_degenerate` is undefined: the angular resolution is 0. -/
lemma degenerate_margin : frame_margin pkt_degenerate = none := by
  have h1 : frame_num_points pkt_degenerate = 1 := by decide
  have h2 : frame_start_angle pkt_degenerate = 0 := by decide
  have h3 : frame_end_angle pkt_degenerate = 0 := by decide
  have har : frame_angular_resolution pkt_degenerate = 0 := by
    rw [frame_angular_resolution, h1, h2, h3, angular_resolution_of]
    norm_num
  rw [frame_margin, har, calculate_dynamic_safety_margin]
  norm_num

/-- Margin of `pkt_np1` (a `point_count = 1` frame with distinct angles). -/
lemma np1_margin : frame_margin pkt_np1 = some 950 := by
  have h1 : frame_num_points pkt_np1 = 1 := by decide
  have h2 : frame_speed pkt_np1 = 0 := by decide
  have h3 : frame_start_angle pkt_np1 = 0 := by decide
  have h4 : frame_end_angle pkt_np1 = 100 := by decide
  have har : frame_angular_resolution pkt_np1 = 100 := by
    rw [frame_angular_resolution, h1, h3, h4, angular_resolution_of]
    norm_num
  rw [frame_margin, h2, har, calculate_dynamic_safety_margin]
  norm_num

/-- The REV C scan loop on `pkt_np1` finds no qualifying point (its only
point has the invalid-reading distance 0). -/
lemma np1_closest : closest_obstacle_rev_c pkt_np1 950 = none := by
  have h1 : frame_num_points pkt_np1 = 1 := by decide
  have hd0 : u16le pkt_np1 6 = 0 := by decide
  rw [closest_obstacle_rev_c, h1]
  simp only [List.range_succ, List.range_zero, List.nil_append, List.cons_append,
    List.foldl_cons, List.foldl_nil, List.foldl_append, hd0]
  norm_num

/-- The Basic scan loop on `pkt_quad90` finds the point at distance 1 with
mount-adjusted angle 90°. -/
lemma quad90_closest : closest_obstacle_basic pkt_quad90 = some (1, 90) := by
  have h1 : frame_num_points pkt_quad90 = 2 := by decide
  have h2 : frame_start_angle pkt_quad90 = 0 := by decide
  have h3 : frame_end_angle pkt_quad90 = 0 := by decide
  have hl : pkt_quad90.length = 22 := by decide
  have har : frame_angular_resolution pkt_quad90 = 0 := by
    rw [frame_angular_resolution, h1, h2, h3, angular_resolution_of]
    norm_num
  have hd0 : u16le pkt_quad90 6 = 1 := by decide
  have hd1 : u16le pkt_quad90 9 = 0 := by decide
  rw [closest_obstacle_basic, h1]
  simp only [List.range_succ, List.range_zero, List.nil_append, List.cons_append,
    List.foldl_cons, List.foldl_nil, List.foldl_append, h2, hl, har, hd0, hd1]
  norm_num [pymod_small]

/-! ## Claim theorems -/

/-- C1: the claim demands that every frame with `point_count ≤ 1` fail with
`DegenerateGeometry`, yield `Stop`, and never divide by zero.  The REV C
parser has no such guard: on `pkt_degenerate` (`point_count = 1`,
`start_angle = end_angle`) the margin computation raises an uncaught
`ZeroDivisionError`, and on `pkt_np1` (`point_count = 1`, distinct angles)
it returns `FORWARD` — not `Stop` in either case.  Only the Basic variant
returns `"STOP"` as claimed. -/
theorem C1_rev_c_missing_degenerate_guard :
    frame_num_points pkt_degenerate = 1 ∧
    parse_lidar_packet_rev_c pkt_degenerate = PyResult.zeroDivisionError ∧
    frame_num_points pkt_np1 = 1 ∧
    parse_lidar_packet_rev_c pkt_np1 = PyResult.ok Action.FORWARD ∧
    parse_lidar_packet pkt_degenerate = Action.STOP := by
  have hl : pkt_degenerate.length = 22 := by decide
  have hl2 : pkt_np1.length = 22 := by decide
  refine ⟨by decide, ?_, by decide, ?_, ?_⟩
  · rw [parse_lidar_packet_rev_c, hl, degenerate_margin]
    norm_num
  · rw [parse_lidar_packet_rev_c, hl2, np1_margin]
    norm_num [np1_closest]
  · have hnp : frame_num_points pkt_degenerate = 1 := by decide
    rw [parse_lidar_packet, hl, hnp]
    norm_num

/-- C2: the claim says `decide` selects the *minimum-distance* point among
those with `0 < distance < margin` and classifies by its angle and
intensity.  On `pkt_two_points` both points qualify (distances 100 and 500
below the margin 950), yet the REV C loop records the *last* one
(distance 500, intensity 0, angle 9100) because its update is not guarded
by `distance < closest_distance`; the engine then returns `STOP`, while the
minimum-distance point (distance 100, intensity 30, angle 9000) would give
`TURN_LEFT`. -/
theorem C2_rev_c_tracks_last_not_minimum :
    u16le pkt_two_points 6 = 100 ∧ byteAt pkt_two_points 8 = 30 ∧
    u16le pkt_two_points 9 = 500 ∧ byteAt pkt_two_points 11 = 0 ∧
    frame_margin pkt_two_points = some 950 ∧
    closest_obstacle_rev_c pkt_two_points 950 = some (500, 0, 9100) ∧
    parse_lidar_packet_rev_c pkt_two_points = PyResult.ok Action.STOP ∧
    make_dynamic_decision 30 9000 = Action.TURN_LEFT := by
  refine ⟨by decide, by decide, by decide, by decide, two_points_margin,
    two_points_closest, ?_, by norm_num [make_dynamic_decision]⟩
  rw [parse_lidar_packet_rev_c, two_points_fields.2.2.2.2, two_points_margin]
  norm_num [two_points_closest, make_dynamic_decision]

/-- C3 counterexample: the margin is *not* non-decreasing as the angular
resolution coarsens: at `scan_speed = 1000`, coarsening the angle-per-point
from 100 to 200 centidegrees *shrinks* the margin from 1310 to 1130. -/
theorem C3_margin_shrinks_as_resolution_coarsens_cex :
    calculate_dynamic_safety_margin 1000 100 = some 1310 ∧
    calculate_dynamic_safety_margin 1000 200 = some 1130 ∧
    ¬ ((1310 : ℚ) ≤ 1130) := by
  refine ⟨?_, ?_, by norm_num⟩ <;> (rw [calculate_dynamic_safety_margin]; norm_num)

/-- C3 amended: for a positive angular resolution the margin is
monotonically non-decreasing in `scan_speed`, but it is monotonically
non-*increasing* — not non-decreasing — as the angular resolution coarsens
(the angle-per-point value grows). -/
theorem C3_margin_monotone_speed_antitone_resolution :
    (∀ (s1 s2 : ℕ) (ar m1 m2 : ℚ), 0 < ar → s1 ≤ s2 →
      calculate_dynamic_safety_margin s1 ar = some m1 →
      calculate_dynamic_safety_margin s2 ar = some m2 → m1 ≤ m2) ∧
    (∀ (s : ℕ) (ar1 ar2 m1 m2 : ℚ), 0 < ar1 → ar1 ≤ ar2 →
      calculate_dynamic_safety_margin s ar1 = some m1 →
      calculate_dynamic_safety_margin s ar2 = some m2 → m2 ≤ m1) := by
  constructor
  · intro s1 s2 ar m1 m2 har hs h1 h2
    rw [calculate_dynamic_safety_margin, if_neg har.ne'] at h1 h2
    simp only [Option.some.injEq] at h1 h2
    subst h1
    subst h2
    have hcast : (s1 : ℚ) ≤ (s2 : ℚ) := by exact_mod_cast hs
    gcongr
  · intro s ar1 ar2 m1 m2 har1 h12 h1 h2
    have har2 : 0 < ar2 := lt_of_lt_of_le har1 h12
    rw [calculate_dynamic_safety_margin, if_neg har1.ne'] at h1
    rw [calculate_dynamic_safety_margin, if_neg har2.ne'] at h2
    simp only [Option.some.injEq] at h1 h2
    subst h1
    subst h2
    gcongr

/-- C3 amended, witness: concrete instances of both monotonicity
directions. -/
theorem C3_margin_monotone_speed_antitone_resolution_witness :
    calculate_dynamic_safety_margin 2000 100 = some 1670 ∧
    (1310 : ℚ) ≤ 1670 ∧ (1130 : ℚ) ≤ 1310 := by
  have e1 : calculate_dynamic_safety_margin 1000 100 = some 1310 := by
    rw [calculate_dynamic_safety_margin]; norm_num
  have e2 : calculate_dynamic_safety_margin 2000 100 = some 1670 := by
    rw [calculate_dynamic_safety_margin]; norm_num
  have e3 : calculate_dynamic_safety_margin 1000 200 = some 1130 := by
    rw [calculate_dynamic_safety_margin]; norm_num
  exact ⟨e2,
    C3_margin_monotone_speed_antitone_resolution.1 1000 2000 100 1310 1670
      (by norm_num) (by norm_num) e1 e2,
    C3_margin_monotone_speed_antitone_resolution.2 1000 100 200 1310 1130
      (by norm_num) (by norm_num) e1 e3⟩

/-- C4 counterexample: when the stream ends right after the header,
`read_packet` returns a truncated 1-byte frame instead of failing with an
`IncompleteFrame` condition; and when the stream ends before any header,
`find_packet_start` never returns (no error propagates either way). -/
theorem C4_truncated_frame_returned_cex :
    read_packet [0x54] = some [0x54] ∧ ([0x54] : List ℕ).length = 1 ∧
    find_packet_start ([] : List ℕ) = none := ⟨rfl, rfl, rfl⟩

/-- C4 amended: whenever the header search succeeds, `read_packet` returns
the header followed by *up to* 21 bytes with no error signalled; a stream
that ends mid-frame yields a *truncated* frame of length `< 22` (the
truncation is only caught downstream, by the parser's `struct.error`
handler). -/
theorem C4_read_packet_returns_possibly_truncated (s rest : List ℕ)
    (h : find_packet_start s = some rest) :
    read_packet s = some (0x54 :: rest.take 21) ∧
    (0x54 :: rest.take 21).length = 1 + min 21 rest.length ∧
    (rest.length < 21 → (0x54 :: rest.take 21).length < 22) := by
  refine ⟨by rw [read_packet, h]; rfl, ?_, ?_⟩
  · simp only [List.length_cons, List.length_take]
    omega
  · intro hlt
    simp only [List.length_cons, List.length_take]
    omega

/-- C4 amended, witness: the stream `[0x54]` ends right after the header and
yields the truncated frame `[0x54]` of length 1. -/
theorem C4_read_packet_returns_possibly_truncated_witness :
    read_packet [0x54] = some (0x54 :: ([] : List ℕ).take 21) ∧
    (0x54 :: ([] : List ℕ).take 21).length = 1 + min 21 ([] : List ℕ).length ∧
    (([] : List ℕ).length < 21 → (0x54 :: ([] : List ℕ).take 21).length < 22) :=
  C4_read_packet_returns_possibly_truncated [0x54] [] rfl

/-- C5 counterexample: after pushing `FORWARD` then `STOP`, the pipeline's
pop returns the *first* action `FORWARD`, not the most recent `STOP`. -/
theorem C5_pop_returns_oldest_cex :
    (pop_latest (queue_put (queue_put [] Action.FORWARD) Action.STOP)).1 =
      some Action.FORWARD ∧
    some Action.FORWARD ≠ some Action.STOP := ⟨rfl, by decide⟩

/-- C5 amended: the pipeline is an unbounded FIFO — after two pushes a pop
returns the first (oldest) action and the second remains queued; a pop with
nothing pending yields `none`. -/
theorem C5_pipeline_is_fifo (a b : Action) :
    pop_latest (queue_put (queue_put [] a) b) = (some a, [b]) ∧
    pop_latest ([] : List Action) = (none, []) := ⟨rfl, rfl⟩

/-- C6 counterexample: a frame with `point_count = 2` — past any
degenerate-geometry check — whose `start_angle` and `end_angle` coincide
still has angular resolution 0, and the margin computation divides by
zero. -/
theorem C6_margin_divide_by_zero_cex :
    frame_num_points pkt_equal_angles = 2 ∧
    frame_angular_resolution pkt_equal_angles = 0 ∧
    frame_margin pkt_equal_angles = none := by
  have h2 : frame_start_angle pkt_equal_angles = 500 := by decide
  have h3 : frame_end_angle pkt_equal_angles = 500 := by decide
  have har : frame_angular_resolution pkt_equal_angles = 0 := by
    rw [frame_angular_resolution, h2, h3, angular_resolution_of]
    norm_num
  refine ⟨by decide, har, ?_⟩
  rw [frame_margin, har, calculate_dynamic_safety_margin]
  norm_num

/-- C6 amended: the divisor `angular_resolution` is zero exactly when
`end_angle = start_angle`, *regardless of* `point_count`; the margin
computation is defined exactly when the two angles differ.  A
`point_count ≥ 2` therefore does not rule out the division by zero. -/
theorem C6_margin_defined_iff_angles_differ
    (speed start_angle end_angle point_count : ℕ) :
    (angular_resolution_of start_angle end_angle point_count = 0 ↔
      end_angle = start_angle) ∧
    ((calculate_dynamic_safety_margin speed
        (angular_resolution_of start_angle end_angle point_count)).isSome ↔
      end_angle ≠ start_angle) := by
  refine ⟨angular_resolution_eq_zero_iff start_angle end_angle point_count, ?_⟩
  rw [calculate_dynamic_safety_margin]
  by_cases h : angular_resolution_of start_angle end_angle point_count = 0
  · rw [if_pos h]
    simpa using (angular_resolution_eq_zero_iff start_angle end_angle point_count).mp h
  · rw [if_neg h]
    simpa using fun he => h ((angular_resolution_eq_zero_iff
      start_angle end_angle point_count).mpr he)

/-- C7: in the Basic (fixed-quadrant) variant, whenever the closest
obstacle is nearer than `SAFETY_DISTANCE`, the parser classifies its
mount-adjusted angle `a` as the claim states: `a ∈ [45, 135] → TURN_RIGHT`,
`a ∈ [225, 315] → TURN_LEFT`, otherwise `REVERSE`; in particular 90° turns
right, 270° turns left, and 0° reverses. -/
theorem C7_quadrant_policy (p : List ℕ) (cd : ℕ) (ca : ℚ)
    (hlen : 6 ≤ p.length) (hnp : 2 ≤ frame_num_points p)
    (hclosest : closest_obstacle_basic p = some (cd, ca))
    (hcd : cd < SAFETY_DISTANCE) :
    parse_lidar_packet p = quadrant_decision ca ∧
    (45 ≤ ca ∧ ca ≤ 135 → parse_lidar_packet p = Action.TURN_RIGHT) ∧
    (225 ≤ ca ∧ ca ≤ 315 → parse_lidar_packet p = Action.TURN_LEFT) ∧
    (¬(45 ≤ ca ∧ ca ≤ 135) → ¬(225 ≤ ca ∧ ca ≤ 315) →
      parse_lidar_packet p = Action.REVERSE) ∧
    quadrant_decision 90 = Action.TURN_RIGHT ∧
    quadrant_decision 270 = Action.TURN_LEFT ∧
    quadrant_decision 0 = Action.REVERSE := by
  have hmain : parse_lidar_packet p = quadrant_decision ca := by
    rw [parse_lidar_packet, if_neg (by omega), if_neg (by omega), hclosest]
    exact if_pos hcd
  refine ⟨hmain, ?_, ?_, ?_, ?_, ?_, ?_⟩
  · intro h
    rw [hmain, quadrant_decision, if_pos h]
  · intro h
    rw [hmain, quadrant_decision]
    have : ¬(45 ≤ ca ∧ ca ≤ 135) := by
      rintro ⟨-, hle⟩
      linarith [h.1]
    rw [if_neg this, if_pos h]
  · intro h1 h2
    rw [hmain, quadrant_decision, if_neg h1, if_neg h2]
  · rw [quadrant_decision]
    norm_num
  · rw [quadrant_decision]
    norm_num
  · rw [quadrant_decision]
    norm_num

/-- C7 witness: on `pkt_quad90` the closest obstacle is at distance 1 with
mount-adjusted angle 90°, and the parser turns right. -/
theorem C7_quadrant_policy_witness :
    parse_lidar_packet pkt_quad90 = Action.TURN_RIGHT :=
  (C7_quadrant_policy pkt_quad90 1 90 (by decide) (by decide) quad90_closest
    (by decide)).2.1 (by norm_num)

/-- C8: the margin computed by the source composition — the parser's
`angular_resolution` expression fed into `calculate_dynamic_safety_margin`
— equals the claim's formula
`950 + (scan_speed / 1000) * (36000 / angular_resolution)` whenever the
divisor is defined (`end_angle ≠ start_angle`; with equal angles both
sides divide by zero, see C6). -/
theorem C8_dynamic_margin_formula (speed start_angle end_angle point_count : ℕ)
    (h : end_angle ≠ start_angle) :
    calculate_dynamic_safety_margin speed
        (angular_resolution_of start_angle end_angle point_count) =
      some (margin_formula_spec speed start_angle end_angle point_count) := by
  have har : angular_resolution_of start_angle end_angle point_count ≠ 0 :=
    fun he => h ((angular_resolution_eq_zero_iff start_angle end_angle point_count).mp he)
  rw [calculate_dynamic_safety_margin, if_neg har]
  rfl

/-- C8 witness: at `scan_speed = 10000`, `start_angle = 0`,
`end_angle = 18000`, `point_count = 3` the computed margin is
`950 + 10 * (36000 / 9000) = 990`. -/
theorem C8_dynamic_margin_formula_witness :
    calculate_dynamic_safety_margin 10000 (angular_resolution_of 0 18000 3) =
      some (margin_formula_spec 10000 0 18000 3) ∧
    margin_formula_spec 10000 0 18000 3 = 990 := by
  refine ⟨C8_dynamic_margin_formula 10000 0 18000 3 (by decide), ?_⟩
  rw [margin_formula_spec]
  norm_num

/-- C9 counterexample: with junk `[0x54]` — arbitrary garbage may contain
the sentinel byte — followed by a valid 22-byte frame, the reader locks on
to the junk byte and returns 22 bytes that are *not* the valid frame. -/
theorem C9_resync_fails_on_header_byte_junk_cex :
    (0x54 :: List.replicate 21 0 : List ℕ).length = 22 ∧
    (0x54 :: List.replicate 21 0 : List ℕ).head? = some 0x54 ∧
    read_packet ([0x54] ++ (0x54 :: List.replicate 21 0)) =
      some (0x54 :: 0x54 :: List.replicate 20 0) ∧
    (0x54 :: 0x54 :: List.replicate 20 0 : List ℕ) ≠
      0x54 :: List.replicate 21 0 := by
  refine ⟨by decide, by decide, by decide, by decide⟩

/-- C9 amended: the reader resynchronizes after junk that contains no
`0x54` byte — for any such junk followed by a valid 22-byte frame starting
with `0x54`, `read_packet` yields exactly that frame. -/
theorem C9_resync_after_header_free_junk (junk frame : List ℕ)
    (hj : ∀ b ∈ junk, b ≠ 0x54) (hlen : frame.length = 22)
    (hhead : frame.head? = some 0x54) :
    read_packet (junk ++ frame) = some frame := by
  obtain ⟨t, rfl⟩ : ∃ t, frame = 0x54 :: t := by
    cases frame with
    | nil => simp at hhead
    | cons b t =>
        simp only [List.head?_cons, Option.some.injEq] at hhead
        exact ⟨t, by rw [hhead]⟩
  have ht : t.length = 21 := by
    simpa using hlen
  rw [read_packet, find_packet_start_append junk _ hj]
  simp only [find_packet_start, if_true, eq_self_iff_true, Option.map_some']
  rw [List.take_of_length_le (by omega)]

/-- C9 amended, witness: three junk bytes followed by a valid frame yield
exactly that frame. -/
theorem C9_resync_after_header_free_junk_witness :
    read_packet ([1, 2, 3] ++ (0x54 :: List.replicate 21 7)) =
      some (0x54 :: List.replicate 21 7) :=
  C9_resync_after_header_free_junk [1, 2, 3] (0x54 :: List.replicate 21 7)
    (by decide) (by decide) rfl

/-- C10: the Basic `COMMANDS` literal — the one whose values match the
claim's canonical records — is missing the closing brace of the `FORWARD`
record, so the other four command records end up nested *inside* FORWARD's
value and a top-level lookup of `"REVERSE"` (or of the other three) fails;
meanwhile the well-formed REV C table maps `FORWARD` to
`{T:1, L:150, R:150}`, not to the claimed `{T:1, L:100, R:100}`. -/
theorem C10_commands_mapping_broken :
    (COMMANDS_basic.lookup "REVERSE").isNone ∧
    (COMMANDS_basic.lookup "TURN_LEFT").isNone ∧
    (COMMANDS_basic.lookup "TURN_RIGHT").isNone ∧
    (COMMANDS_basic.lookup "STOP").isNone ∧
    (COMMANDS_basic.lookup "FORWARD").isSome ∧
    COMMANDS.lookup "FORWARD" = some ⟨1, some 150, some 150⟩ ∧
    (⟨1, some 150, some 150⟩ : MotorCommand) ≠ ⟨1, some 100, some 100⟩ ∧
    COMMANDS.lookup "REVERSE" = some ⟨1, some (-200), some (-200)⟩ ∧
    COMMANDS.lookup "TURN_LEFT" = some ⟨1, some (-255), some 255⟩ ∧
    COMMANDS.lookup "TURN_RIGHT" = some ⟨1, some 255, some (-255)⟩ ∧
    COMMANDS.lookup "STOP" = some ⟨0, none, none⟩ := by
  refine ⟨rfl, rfl, rfl, rfl, rfl, rfl, by decide, rfl, rfl, rfl, rfl⟩

end Wrover
